import Mathlib

/-!
Verification of the jwt-pizza-service core: the JWT session lifecycle
(issue / verify / revoke-by-signature / activity-ledger check) and the
data-access layer (orders with nested items, franchises with admins and
stores, credential-store primitives) as described in the specification.

The service's `database.js` and the route handler modules are not among
the available sources; only their unit tests are.  Every definition whose
implementation file is missing is therefore modelled from the
specification (its doc comment says so and names the missing file), and
cross-checked against the statement-level behaviour its unit test pins
(exact SQL statements issued, their parameters and order, and the
observable results).  Machine state is an explicit relational-database
value; each operation is a pure function on it, optionally paired with
the trace of SQL statements it issues.
-/

namespace JwtPizza

/-- Role-kind constants, mirroring `Role` exported by `database.js`
(values pinned by the tests: `'diner'`, `'franchisee'`, `'admin'`). -/
def Role.Diner : String := "diner"

/-- The franchisee role kind. -/
def Role.Franchisee : String := "franchisee"

/-- The admin role kind. -/
def Role.Admin : String := "admin"

/-- A row of the `auth` token ledger: `(token_signature, userId)`. -/
structure AuthRow where
  sig : String
  userId : Nat
deriving Repr, DecidableEq

/-- A row of the `user` table.  `password` holds the stored hash; on
returned user views the field is `none`, modelling the JS object with
the `password` property absent. -/
structure UserRow where
  id : Nat
  name : String
  email : String
  password : Option String
deriving Repr, DecidableEq

/-- A row of the `userRole` table. -/
structure RoleRow where
  userId : Nat
  role : String
  objectId : Nat
deriving Repr, DecidableEq

/-- A `(role, objectId)` assignment as carried on a user view or an
authenticated identity. -/
structure RoleAssignment where
  role : String
  objectId : Nat
deriving Repr, DecidableEq

/-- A row of the `menu` table. -/
structure MenuRow where
  id : Nat
  title : String
  description : String
  image : String
  price : Rat
deriving Repr, DecidableEq

/-- A row of the `dinerOrder` table. -/
structure OrderRow where
  id : Nat
  dinerId : Nat
  franchiseId : Nat
  storeId : Nat
  date : String
deriving Repr, DecidableEq

/-- A row of the `orderItem` table. -/
structure ItemRow where
  id : Nat
  orderId : Nat
  menuId : Nat
  description : String
  price : Rat
deriving Repr, DecidableEq

/-- A row of the `franchise` table. -/
structure FranchiseRow where
  id : Nat
  name : String
deriving Repr, DecidableEq

/-- A row of the `store` table. -/
structure StoreRow where
  id : Nat
  franchiseId : Nat
  name : String
deriving Repr, DecidableEq

/-- The relational state of the service: the eight tables of the
persisted layout plus the auto-increment counter that supplies
`insertId` values. -/
structure DBState where
  auth : List AuthRow
  users : List UserRow
  userRoles : List RoleRow
  menu : List MenuRow
  dinerOrders : List OrderRow
  orderItems : List ItemRow
  franchises : List FranchiseRow
  stores : List StoreRow
  nextId : Nat
deriving Repr, DecidableEq

/-- The empty database. -/
def DBState.empty : DBState :=
  ⟨[], [], [], [], [], [], [], [], 1⟩

/-- The error taxonomy of the specification. -/
inductive ErrKind
  | Unauthorized
  | Forbidden
  | NotFound
  | Conflict
  | ValidationFailed
  | UpstreamFailure
  | Internal
deriving Repr, DecidableEq

/-- Abstract SQL statements, used to record the trace an operation
issues so that statement-count and statement-order properties can be
stated. -/
inductive Stmt
  | insertAuth (key : String) (userId : Nat)
  | selectAuth (key : String)
  | deleteAuth (key : String)
  | updateUserRow (userId : Nat)
  | selectOrders (dinerId : Nat) (offset : Nat) (limit : Nat)
  | selectOrderItems (orderId : Nat)
  | beginTxn
  | deleteStoresByFranchise (franchiseId : Nat)
  | deleteRolesByObject (objectId : Nat)
  | deleteFranchiseRow (franchiseId : Nat)
  | commitTxn
  | rollbackTxn
deriving Repr, DecidableEq

/-! ### Token signature extraction -/

/-- JavaScript `string.split('.')` on the underlying character list:
splits at every `'.'`, preserving empty segments. -/
def splitDots : List Char → List (List Char)
  | [] => [[]]
  | c :: cs =>
    let rest := splitDots cs
    if c = '.' then [] :: rest
    else
      match rest with
      | [] => [[c]]
      | seg :: t => (c :: seg) :: t

/-- Modelled from the spec (`database.js` is absent from the sources):
the ledger key of a token is the third dot-delimited component of the
token string (`header.payload.signature` layout), i.e. the JS
expression `token.split('.')[2]`.  The tests pin this:
`'header.payload.signature'` is keyed as `'signature'`. -/
def tokenSig (token : String) : String :=
  ((splitDots token.data).map (fun cs => String.mk cs)).getD 2 ""

/-! ### Session Authority / token ledger -/

/-- Modelled from the spec (`database.js` is absent): `loginUser`
persists `(signature-segment, userId)` into the `auth` ledger with
`INSERT ... ON DUPLICATE KEY UPDATE token=token` (pinned by its test),
i.e. an upsert that leaves an existing row for the same signature
unchanged.  Returns the statement trace and the new state. -/
def loginUser (userId : Nat) (token : String) (s : DBState) : List Stmt × DBState :=
  let k := tokenSig token
  ([Stmt.insertAuth k userId],
    if s.auth.any (fun r => r.sig == k) then s
    else { s with auth := s.auth ++ [⟨k, userId⟩] })

/-- Modelled from the spec (`database.js` is absent): `isLoggedIn` is a
pure ledger existence check by signature segment
(`SELECT userId FROM auth WHERE token=?`, pinned by its tests). -/
def isLoggedIn (token : String) (s : DBState) : List Stmt × Bool :=
  let k := tokenSig token
  ([Stmt.selectAuth k], s.auth.any (fun r => r.sig == k))

/-- Modelled from the spec (`database.js` is absent): `logoutUser`
deletes the ledger row matching the token's signature segment
(`DELETE FROM auth WHERE token=?`, pinned by its test).  Deleting an
absent row affects nothing and is not an error. -/
def logoutUser (token : String) (s : DBState) : List Stmt × DBState :=
  let k := tokenSig token
  ([Stmt.deleteAuth k], { s with auth := s.auth.filter (fun r => !(r.sig == k)) })

/-- A verified identity: user id plus role assignments. -/
structure Identity where
  id : Nat
  roles : List RoleAssignment
deriving Repr, DecidableEq

/-- The `isRole` capability check attached to an authenticated user. -/
def Identity.isRole (u : Identity) (r : String) : Bool :=
  u.roles.any (fun a => a.role == r)

/-- Errors of the Session Authority's `verify`. -/
inductive AuthError
  | InvalidSignature
  | Revoked
deriving Repr, DecidableEq

/-- Modelled from the spec (the auth-router's token verification is
absent from the sources): `verify` fails with `InvalidSignature` when
cryptographic verification fails (abstracted as the Boolean `sigValid`,
with `ident` the identity the payload decodes to), fails with `Revoked`
when the signature segment is absent from the ledger, and otherwise
returns the decoded identity. -/
def verify (sigValid : Bool) (ident : Identity) (token : String) (s : DBState) :
    Except AuthError Identity :=
  if !sigValid then Except.error AuthError.InvalidSignature
  else if !(isLoggedIn token s).2 then Except.error AuthError.Revoked
  else Except.ok ident

/-! ### Credential Store primitives -/

/-- A user object as returned to callers: `password = none` models the
JS object with the `password` property absent. -/
structure UserView where
  id : Nat
  name : String
  email : String
  password : Option String
  roles : List RoleAssignment
deriving Repr, DecidableEq

/-- The role assignments attached to a user, resolved from the
`userRole` table. -/
def rolesOf (s : DBState) (uid : Nat) : List RoleAssignment :=
  (s.userRoles.filter (fun r => r.userId == uid)).map (fun r => ⟨r.role, r.objectId⟩)

/-- A registration draft submitted to `addUser`. -/
structure UserDraft where
  name : String
  email : String
  password : String
  roles : List RoleAssignment
deriving Repr, DecidableEq

/-- Modelled from the spec (`database.js` is absent): `addUser` hashes
the submitted password (the one-way hash is abstracted as the function
argument `hash`), inserts the user row, inserts one role-assignment row
per submitted role, and returns the created user with the generated id
populated and the password omitted (pinned by its test:
`user.id = insertId` and `user.password` is undefined). -/
def addUser (hash : String → String) (d : UserDraft) (s : DBState) : UserView × DBState :=
  let uid := s.nextId
  let row : UserRow := ⟨uid, d.name, d.email, some (hash d.password)⟩
  let roleRows := d.roles.map (fun a => RoleRow.mk uid a.role a.objectId)
  (⟨uid, d.name, d.email, none, d.roles⟩,
    { s with
      users := s.users ++ [row],
      userRoles := s.userRoles ++ roleRows,
      nextId := s.nextId + 1 })

/-- Modelled from the spec (`database.js` is absent): `getUser` fetches
by email, fails with `NotFound` when no row exists, fails with
`Unauthorized` when the submitted password does not match the stored
hash, and otherwise attaches the resolved role assignments and returns
the user with the password stripped. -/
def getUser (hash : String → String) (email pw : String) (s : DBState) :
    Except ErrKind UserView :=
  match s.users.find? (fun u => u.email == email) with
  | none => Except.error ErrKind.NotFound
  | some u =>
    if u.password == some (hash pw) then
      Except.ok ⟨u.id, u.name, u.email, none, rolesOf s u.id⟩
    else Except.error ErrKind.Unauthorized

/-- The current view of a user row by id, password stripped and roles
attached (the `getUser`-equivalent re-fetch `updateUser` concludes
with). -/
def getUserViewById (s : DBState) (uid : Nat) : Option UserView :=
  (s.users.find? (fun u => u.id == uid)).map
    (fun u => ⟨u.id, u.name, u.email, none, rolesOf s u.id⟩)

/-- JS truthiness of an optional string field: present and non-empty.
An absent field and an empty string both drive "no change". -/
def present (o : Option String) : Bool :=
  match o with
  | none => false
  | some str => !(str == "")

/-- Apply the present/non-empty field changes of an update to a user
row, hashing a new password when one is provided. -/
def updApply (hash : String → String) (name email pw : Option String) (u : UserRow) :
    UserRow :=
  let u1 := match pw with
    | some p => if p == "" then u else { u with password := some (hash p) }
    | none => u
  let u2 := match email with
    | some e => if e == "" then u1 else { u1 with email := e }
    | none => u1
  match name with
  | some n => if n == "" then u2 else { u2 with name := n }
  | none => u2

/-- Modelled from the spec (`database.js` is absent): `updateUser`
builds an update touching only the fields that are present/non-empty,
issues no update statement at all if nothing changed (pinned by its
test: with no arguments, `execute` is never called), and always
concludes by re-fetching and returning the current user view.  Returns
the write-statement trace, the new state, and the re-fetched view. -/
def updateUser (hash : String → String) (uid : Nat) (name email pw : Option String)
    (s : DBState) : List Stmt × DBState × Option UserView :=
  let changed := present name || present email || present pw
  let s2 :=
    if changed then
      { s with users := s.users.map (fun u => if u.id == uid then updApply hash name email pw u else u) }
    else s
  ((if changed then [Stmt.updateUserRow uid] else []), s2, getUserViewById s2 uid)

/-- Modelled from the spec (`database.js` is absent): `listAllUsers`
filters by name (the SQL `LIKE` pattern is abstracted as the predicate
`pred`), over-fetches `pageSize + 1` rows at offset
`(page - 1) * pageSize`, reports `hasMore` iff the raw fetch exceeded
`pageSize`, truncates to `pageSize`, and enriches each returned user
with its resolved role list; passwords are never included. -/
def listAllUsers (pred : UserRow → Bool) (page pageSize : Nat) (s : DBState) :
    List UserView × Bool :=
  let fetched := (((s.users.filter pred).drop ((page - 1) * pageSize)).take (pageSize + 1))
  let more := pageSize < fetched.length
  let rows := if more then fetched.take pageSize else fetched
  (rows.map (fun u => ⟨u.id, u.name, u.email, none, rolesOf s u.id⟩), more)

/-! ### Authorization Policy -/

/-- `canActOnUser`: self-access or admin override. -/
def canActOnUser (actor : Identity) (targetUserId : Nat) : Bool :=
  actor.id == targetUserId || actor.isRole Role.Admin

/-- A summary of an admin user attached to a franchise view. -/
structure UserSummary where
  id : Nat
  name : String
  email : String
deriving Repr, DecidableEq

/-- A store view; `totalRevenue = none` models the plain
`{id, name}` shape fetched for non-admin callers. -/
structure StoreView where
  id : Nat
  name : String
  totalRevenue : Option Rat
deriving Repr, DecidableEq

/-- A franchise enriched with its admin list and store list. -/
structure FranchiseView where
  id : Nat
  name : String
  admins : List UserSummary
  stores : List StoreView
deriving Repr, DecidableEq

/-- `canAdminFranchise`: global admin or listed franchise admin.  The
franchise's admin list must have been resolved before the check. -/
def canAdminFranchise (actor : Identity) (f : FranchiseView) : Bool :=
  actor.isRole Role.Admin || f.admins.any (fun a => a.id == actor.id)

/-! ### Aggregation Query Layer -/

/-- The resolved admins of a franchise: the join of `userRole` rows with
`role='franchisee'` and `objectId` equal to the franchise id against the
`user` table (pinned by the `getFranchise` test's join query). -/
def franchiseAdmins (s : DBState) (fid : Nat) : List UserSummary :=
  (s.userRoles.filter (fun r => r.objectId == fid && r.role == Role.Franchisee)).filterMap
    (fun r => (s.users.find? (fun u => u.id == r.userId)).map
      (fun u => UserSummary.mk u.id u.name u.email))

/-- The revenue rollup of a store: the sum of order-item prices over all
orders placed at the store; zero when there are none. -/
def storeRevenue (s : DBState) (storeId : Nat) : Rat :=
  ((s.orderItems.filter
      (fun oi => s.dinerOrders.any (fun o => o.id == oi.orderId && o.storeId == storeId))).map
    (fun oi => oi.price)).sum

/-- The stores of a franchise annotated with their revenue rollup. -/
def franchiseStores (s : DBState) (fid : Nat) : List StoreView :=
  (s.stores.filter (fun st => st.franchiseId == fid)).map
    (fun st => ⟨st.id, st.name, some (storeRevenue s st.id)⟩)

/-- The stores of a franchise as plain `{id, name}` rows (the non-admin
fetch in `getFranchises`). -/
def plainStores (s : DBState) (fid : Nat) : List StoreView :=
  (s.stores.filter (fun st => st.franchiseId == fid)).map
    (fun st => ⟨st.id, st.name, none⟩)

/-- Modelled from the spec (`database.js` is absent): `getFranchise`
enriches a franchise row with its resolved admins and its stores
annotated with revenue rollups (join queries pinned by its test). -/
def getFranchise (s : DBState) (f : FranchiseRow) : FranchiseView :=
  ⟨f.id, f.name, franchiseAdmins s f.id, franchiseStores s f.id⟩

/-- Modelled from the spec (`database.js` is absent): `getFranchises`
filters by name (the SQL `LIKE` pattern is abstracted as `pred`),
fetches `limit + 1` rows at offset `page * limit` to detect `hasMore`
without a second count query, truncates to `limit`, and resolves store
lists for every returned franchise — with admins and revenue for an
admin caller, plain store rows otherwise (pinned by its test: page size
2 against 3 rows yields 2 franchises and `more = true`, each with its
own store list). -/
def getFranchises (isAdmin : Bool) (page limit : Nat) (pred : FranchiseRow → Bool)
    (s : DBState) : List FranchiseView × Bool :=
  let fetched := ((s.franchises.filter pred).drop (page * limit)).take (limit + 1)
  let more := limit < fetched.length
  let rows := if more then fetched.take limit else fetched
  (rows.map (fun f =>
      if isAdmin then getFranchise s f else ⟨f.id, f.name, [], plainStores s f.id⟩),
    more)

/-- Modelled from the spec (`database.js` is absent): `getUserFranchises`
resolves the franchise ids where the user holds a franchisee role, short
circuits to `[]` on an empty id set without a second query, and
otherwise fetches those franchise rows and enriches each via
`getFranchise` (pinned by its tests). -/
def getUserFranchises (uid : Nat) (s : DBState) : List FranchiseView :=
  let fids := (s.userRoles.filter
      (fun r => r.role == Role.Franchisee && r.userId == uid)).map (fun r => r.objectId)
  if fids.isEmpty then []
  else ((s.franchises.filter (fun f => fids.contains f.id)).map (getFranchise s))

/-- An order item as nested under an order view. -/
structure ItemView where
  id : Nat
  menuId : Nat
  description : String
  price : Rat
deriving Repr, DecidableEq

/-- An order with its nested items. -/
structure OrderView where
  id : Nat
  franchiseId : Nat
  storeId : Nat
  date : String
  items : List ItemView
deriving Repr, DecidableEq

/-- The `{dinerId, page, orders}` result of `getOrders`. -/
structure OrdersPage where
  dinerId : Nat
  page : Nat
  orders : List OrderView
deriving Repr, DecidableEq

/-- The item rows of one order, as fetched by the per-order item query
`SELECT id, menuId, description, price FROM orderItem WHERE orderId=?`. -/
def itemsOf (s : DBState) (orderId : Nat) : List ItemView :=
  (s.orderItems.filter (fun oi => oi.orderId == orderId)).map
    (fun oi => ⟨oi.id, oi.menuId, oi.description, oi.price⟩)

/-- Modelled from the spec (`database.js` is absent): `getOrders`
fetches up to `pageSize` of the user's orders at offset
`(page - 1) * pageSize` (query pinned by its tests:
`... WHERE dinerId=? LIMIT offset,pageSize`), then performs one
additional item fetch per returned order, attaching each result set
under that order's `items`.  Returns the statement trace and the
`{dinerId, page, orders}` result. -/
def getOrders (pageSize : Nat) (userId page : Nat) (s : DBState) :
    List Stmt × OrdersPage :=
  let offset := (page - 1) * pageSize
  let rows := ((s.dinerOrders.filter (fun o => o.dinerId == userId)).drop offset).take pageSize
  (Stmt.selectOrders userId offset pageSize :: rows.map (fun o => Stmt.selectOrderItems o.id),
    ⟨userId, page,
      rows.map (fun o => ⟨o.id, o.franchiseId, o.storeId, o.date, itemsOf s o.id⟩)⟩)

/-- An order-item draft submitted with an order. -/
structure ItemDraft where
  menuId : Nat
  description : String
  price : Rat
deriving Repr, DecidableEq

/-- An order draft submitted to `addDinerOrder`. -/
structure OrderDraft where
  franchiseId : Nat
  storeId : Nat
  items : List ItemDraft
deriving Repr, DecidableEq

/-- Whether a menu row with the given id exists. -/
def menuHas (s : DBState) (mid : Nat) : Bool :=
  s.menu.any (fun m => m.id == mid)

/-- The item rows inserted for one order: sequential ids, the order's
id, and the draft's description and price copied at insertion time. -/
def mkItemRows (orderId : Nat) : Nat → List ItemDraft → List ItemRow
  | _, [] => []
  | nid, it :: rest =>
    ⟨nid, orderId, it.menuId, it.description, it.price⟩ :: mkItemRows orderId (nid + 1) rest

/-- Modelled from the spec (`database.js` is absent): `addDinerOrder`
inserts one order row, then for each submitted item resolves the
referenced menu id — failing the whole operation with `NotFound` if any
referenced menu item does not exist — and inserts one item row per
draft item, copying description and price at insertion time.  Per the
spec's visibility guarantee ("readers either see the order with all its
items or see nothing"), the failing case leaves the state untouched. -/
def addDinerOrder (user : Identity) (d : OrderDraft) (s : DBState) :
    Except ErrKind (Nat × DBState) :=
  if d.items.all (fun it => menuHas s it.menuId) then
    let orderId := s.nextId
    Except.ok (orderId,
      { s with
        dinerOrders := s.dinerOrders ++ [⟨orderId, user.id, d.franchiseId, d.storeId, "now()"⟩],
        orderItems := s.orderItems ++ mkItemRows orderId (s.nextId + 1) d.items,
        nextId := s.nextId + 1 + d.items.length })
  else Except.error ErrKind.NotFound

/-- The three steps of the `deleteFranchise` cascade, for injecting a
failure at a chosen step. -/
inductive DelStep
  | stores
  | roles
  | franchiseRow
deriving Repr, DecidableEq

/-- Modelled from the spec (`database.js` is absent): `deleteFranchise`
wraps three deletes — stores by franchise id, role assignments by
object id, the franchise row — in an explicit begin/commit transaction
(statements and their order pinned by its test); on any step's failure
(injected via `failAt`) it rolls back, leaving all tables unchanged,
and the error propagates.  Returns the statement trace, the resulting
state, and the propagated error if any. -/
def deleteFranchise (failAt : Option DelStep) (fid : Nat) (s : DBState) :
    List Stmt × DBState × Option ErrKind :=
  match failAt with
  | some DelStep.stores =>
    ([Stmt.beginTxn, Stmt.deleteStoresByFranchise fid, Stmt.rollbackTxn], s,
      some ErrKind.Internal)
  | some DelStep.roles =>
    ([Stmt.beginTxn, Stmt.deleteStoresByFranchise fid, Stmt.deleteRolesByObject fid,
        Stmt.rollbackTxn], s, some ErrKind.Internal)
  | some DelStep.franchiseRow =>
    ([Stmt.beginTxn, Stmt.deleteStoresByFranchise fid, Stmt.deleteRolesByObject fid,
        Stmt.deleteFranchiseRow fid, Stmt.rollbackTxn], s, some ErrKind.Internal)
  | none =>
    ([Stmt.beginTxn, Stmt.deleteStoresByFranchise fid, Stmt.deleteRolesByObject fid,
        Stmt.deleteFranchiseRow fid, Stmt.commitTxn],
      { s with
        stores := s.stores.filter (fun st => !(st.franchiseId == fid)),
        userRoles := s.userRoles.filter (fun r => !(r.objectId == fid)),
        franchises := s.franchises.filter (fun f => !(f.id == fid)) },
      none)

/-- Modelled from the spec (`database.js` is absent): `createStore`
inserts a single store row under the franchise and returns the created
store with the generated id (pinned by its test). -/
def createStore (fid : Nat) (storeName : String) (s : DBState) : StoreRow × DBState :=
  (⟨s.nextId, fid, storeName⟩,
    { s with stores := s.stores ++ [⟨s.nextId, fid, storeName⟩], nextId := s.nextId + 1 })

/-- Modelled from the spec (`database.js` is absent): `deleteStore`
deletes the single store row scoped by franchise id and store id
(pinned by its test). -/
def deleteStore (fid sid : Nat) (s : DBState) : DBState :=
  { s with stores := s.stores.filter (fun st => !(st.franchiseId == fid && st.id == sid)) }

/-! ### Route handlers (the thin layer above the core, as far as the
claims need it) -/

/-- Modelled from the spec (the auth router module is absent):
`setAuth` signs a token for the user (signing abstracted as `sign`),
persists its signature into the ledger via `loginUser`, and returns the
token. -/
def setAuth (sign : Identity → String) (u : Identity) (s : DBState) : String × DBState :=
  let t := sign u
  (t, (loginUser u.id t s).2)

/-- The `{user, token}` body of a successful profile update response. -/
structure UpdateResponse where
  user : Option UserView
  token : String
deriving Repr, DecidableEq

/-- Modelled from the spec (the user router module is absent): the
`PUT /api/user/:userId` handler rejects with `Forbidden` unless the
actor may act on the target user, otherwise updates the user via
`updateUser`, issues a fresh session token for the updated user via
`setAuth`, and responds with `{user, token}` (pinned by its tests for
both the self-update and the admin-update path, and by the 403 test for
the forbidden path). -/
def putUserRoute (hash : String → String) (sign : Identity → String) (actor : Identity)
    (targetUserId : Nat) (name email pw : Option String) (s : DBState) :
    Except ErrKind (UpdateResponse × DBState) :=
  if canActOnUser actor targetUserId then
    let r := updateUser hash targetUserId name email pw s
    let ident : Identity := ⟨targetUserId, ((r.2.2).map (fun v => v.roles)).getD []⟩
    let a := setAuth sign ident r.2.1
    Except.ok (⟨r.2.2, a.1⟩, a.2)
  else Except.error ErrKind.Forbidden

/-- Modelled from the tests (the franchise router module is absent):
the `GET /api/franchise/:userId` handler, whose test pins that when the
actor may not act on the requested user the route responds 200 with an
empty list and performs no fetch — rather than signalling Forbidden. -/
def listUserFranchisesRoute (actor : Identity) (targetUserId : Nat) (s : DBState) :
    Except ErrKind (List FranchiseView) :=
  if canActOnUser actor targetUserId then Except.ok (getUserFranchises targetUserId s)
  else Except.ok []

/-- The franchise view the store routes check against: the franchise
fetched and enriched before the `canAdminFranchise` check. -/
def fetchFranchise (s : DBState) (fid : Nat) : FranchiseView :=
  ⟨fid, (((s.franchises.find? (fun f => f.id == fid)).map (fun f => f.name)).getD ""),
    franchiseAdmins s fid, franchiseStores s fid⟩

/-- Modelled from the spec (the franchise router module is absent): the
`POST /api/franchise/:franchiseId/store` handler resolves the franchise,
rejects with `Forbidden` unless the actor may administer it (403 pinned
by its test), and otherwise creates the store. -/
def createStoreRoute (actor : Identity) (fid : Nat) (storeName : String) (s : DBState) :
    Except ErrKind (StoreRow × DBState) :=
  if canAdminFranchise actor (fetchFranchise s fid) then
    Except.ok (createStore fid storeName s)
  else Except.error ErrKind.Forbidden

/-- Modelled from the spec (the franchise router module is absent): the
`DELETE /api/franchise/:franchiseId/store/:storeId` handler resolves the
franchise, rejects with `Forbidden` unless the actor may administer it
(403 pinned by its test), and otherwise deletes the store. -/
def deleteStoreRoute (actor : Identity) (fid sid : Nat) (s : DBState) :
    Except ErrKind DBState :=
  if canAdminFranchise actor (fetchFranchise s fid) then
    Except.ok (deleteStore fid sid s)
  else Except.error ErrKind.Forbidden

/-- Modelled from the spec (`database.js` is absent): `createFranchise`
resolves each submitted admin email to an existing user — failing with
`NotFound` before any insert if any email does not resolve — then
inserts the franchise row and one franchisee role assignment per
resolved admin, scoped to the new franchise id (statement order pinned
by its test). -/
def createFranchise (fName : String) (adminEmails : List String) (s : DBState) :
    Except ErrKind (Nat × DBState) :=
  let resolved := adminEmails.map (fun e => s.users.find? (fun u => u.email == e))
  if resolved.all (fun o => o.isSome) then
    let fid := s.nextId
    let roleRows := resolved.filterMap
      (fun o => o.map (fun u => RoleRow.mk u.id Role.Franchisee fid))
    Except.ok (fid,
      { s with
        franchises := s.franchises ++ [⟨fid, fName⟩],
        userRoles := s.userRoles ++ roleRows,
        nextId := s.nextId + 1 })
  else Except.error ErrKind.NotFound

/-- Modelled from the spec (the franchise router module is absent): the
`POST /api/franchise` handler rejects with `Forbidden` unless the actor
is an admin (403 pinned by its test), and otherwise creates the
franchise. -/
def createFranchiseRoute (actor : Identity) (fName : String) (adminEmails : List String)
    (s : DBState) : Except ErrKind (Nat × DBState) :=
  if actor.isRole Role.Admin then createFranchise fName adminEmails s
  else Except.error ErrKind.Forbidden

/-- Modelled from the tests (the franchise router module is absent):
the `DELETE /api/franchise/:franchiseId` handler performs no
authorization check of its own (its test notes that no auth is required
by the code) and simply runs the transactional cascade. -/
def deleteFranchiseRoute (fid : Nat) (s : DBState) : Except ErrKind DBState :=
  Except.ok (deleteFranchise none fid s).2.1

/-! ### Concrete fixtures used by witnesses and counterexamples -/

/-- A concrete state with a two-item menu, mirroring the
`addDinerOrder` test fixture. -/
def orderDemoState : DBState :=
  ⟨[], [], [], [⟨10, "Burger", "", "", 6⟩, ⟨11, "Fries", "", "", 3⟩], [], [], [], [], 123⟩

/-- A concrete state where user 3 holds a franchisee role on
franchise 1, mirroring the franchise router test fixture. -/
def franchiseDemoState : DBState :=
  { DBState.empty with userRoles := [⟨3, Role.Franchisee, 1⟩], franchises := [⟨1, "F"⟩] }

/-- The non-admin diner actor of the router tests (id 2, no admin
role). -/
def dinerActor : Identity := ⟨2, [⟨Role.Diner, 0⟩]⟩

/-! ## Helper lemmas -/

theorem splitDots_ne_nil (cs : List Char) : splitDots cs ≠ [] := by
  cases cs with
  | nil => simp [splitDots]
  | cons c t =>
    simp only [splitDots]
    split
    · simp
    · cases splitDots t <;> simp

theorem splitDots_no_dot (cs : List Char) (h : ('.' : Char) ∉ cs) :
    splitDots cs = [cs] := by
  induction cs with
  | nil => rfl
  | cons c t ih =>
    have hc : c ≠ '.' := fun he => h (he ▸ List.mem_cons_self c t)
    have ht : ('.' : Char) ∉ t := fun he => h (List.mem_cons_of_mem c he)
    simp only [splitDots, if_neg hc, ih ht]

theorem splitDots_dot_append (a b : List Char) (ha : ('.' : Char) ∉ a) :
    splitDots (a ++ '.' :: b) = a :: splitDots b := by
  induction a with
  | nil => simp [splitDots]
  | cons c t ih =>
    have hc : c ≠ '.' := fun he => ha (he ▸ List.mem_cons_self c t)
    have ht : ('.' : Char) ∉ t := fun he => ha (List.mem_cons_of_mem c he)
    have harw : t.append ('.' :: b) = t ++ '.' :: b := rfl
    simp only [List.cons_append, splitDots, if_neg hc, harw, ih ht]

theorem tokenSig_of_parts (hd pl sg : String) (hh : ('.' : Char) ∉ hd.data)
    (hp : ('.' : Char) ∉ pl.data) (hs : ('.' : Char) ∉ sg.data) :
    tokenSig (hd ++ "." ++ pl ++ "." ++ sg) = sg := by
  have hdata : (hd ++ "." ++ pl ++ "." ++ sg).data
      = hd.data ++ '.' :: (pl.data ++ '.' :: sg.data) := by
    simp [String.data_append]
  rw [tokenSig, hdata, splitDots_dot_append _ _ hh, splitDots_dot_append _ _ hp,
    splitDots_no_dot _ hs]
  rfl

theorem isLoggedIn_after_login (uid : Nat) (token : String) (s : DBState) :
    (isLoggedIn token (loginUser uid token s).2).2 = true := by
  simp only [isLoggedIn, loginUser]
  split
  · assumption
  · simp [List.any_append]

/-! ## Claims -/

/-- C1: session lifecycle.  After `loginUser` the `isLoggedIn` check on
that token returns true; after `logoutUser` on the same token
`isLoggedIn` returns false and `verify` fails with `Revoked`; and
revoking a token whose ledger row is already absent is not an error —
it leaves the state unchanged (revoke is idempotent). -/
theorem claim_C1_session_lifecycle (uid : Nat) (token : String) (s s2 : DBState)
    (ident : Identity) (habsent : (isLoggedIn token s2).2 = false) :
    (isLoggedIn token (loginUser uid token s).2).2 = true ∧
    (isLoggedIn token (logoutUser token s).2).2 = false ∧
    verify true ident token (logoutUser token s).2 = Except.error AuthError.Revoked ∧
    (logoutUser token s2).2 = s2 := by
  have hlogout : ∀ st : DBState, (isLoggedIn token (logoutUser token st).2).2 = false := by
    intro st
    simp only [isLoggedIn, logoutUser]
    rw [List.any_eq_false]
    intro r hr
    have h2 := (List.mem_filter.mp hr).2
    simp only [Bool.not_eq_true'] at h2
    simp [h2]
  refine ⟨isLoggedIn_after_login uid token s, hlogout s, ?_, ?_⟩
  · simp [verify, hlogout s]
  · have hall : ∀ r ∈ s2.auth, (!(r.sig == tokenSig token)) = true := by
      intro r hr
      simp only [isLoggedIn] at habsent
      rw [List.any_eq_false] at habsent
      simpa using habsent r hr
    simp only [logoutUser, List.filter_eq_self.mpr hall]

/-- Witness for C1 at a concrete token and state. -/
theorem claim_C1_witness :
    (isLoggedIn "h.p.s" (loginUser 42 "h.p.s" DBState.empty).2).2 = true ∧
    (isLoggedIn "h.p.s" (logoutUser "h.p.s" DBState.empty).2).2 = false ∧
    verify true ⟨7, []⟩ "h.p.s" (logoutUser "h.p.s" DBState.empty).2
      = Except.error AuthError.Revoked ∧
    (logoutUser "h.p.s" DBState.empty).2 = DBState.empty :=
  claim_C1_session_lifecycle 42 "h.p.s" DBState.empty DBState.empty ⟨7, []⟩ rfl

/-- C2: for every token of the `header.payload.signature` layout (the
three segments dot-free), the ledger operations `loginUser`,
`isLoggedIn` and `logoutUser` all key the `auth` table by exactly the
third dot-delimited component, which is never the whole token string. -/
theorem claim_C2_signature_keying (hd pl sg : String) (uid : Nat) (s : DBState)
    (hh : ('.' : Char) ∉ hd.data) (hp : ('.' : Char) ∉ pl.data)
    (hs : ('.' : Char) ∉ sg.data) :
    tokenSig (hd ++ "." ++ pl ++ "." ++ sg) = sg ∧
    hd ++ "." ++ pl ++ "." ++ sg ≠ sg ∧
    (loginUser uid (hd ++ "." ++ pl ++ "." ++ sg) s).1 = [Stmt.insertAuth sg uid] ∧
    (isLoggedIn (hd ++ "." ++ pl ++ "." ++ sg) s).1 = [Stmt.selectAuth sg] ∧
    (logoutUser (hd ++ "." ++ pl ++ "." ++ sg) s).1 = [Stmt.deleteAuth sg] := by
  have hsig := tokenSig_of_parts hd pl sg hh hp hs
  refine ⟨hsig, ?_, ?_, ?_, ?_⟩
  · intro heq
    have hlen := congrArg String.length heq
    simp only [String.length_append] at hlen
    have : ("." : String).length = 1 := rfl
    omega
  · simp [loginUser, hsig]
  · simp [isLoggedIn, hsig]
  · simp [logoutUser, hsig]

/-- Witness for C2 at the concrete token of the unit tests. -/
theorem claim_C2_witness :
    tokenSig ("header" ++ "." ++ "payload" ++ "." ++ "signature") = "signature" ∧
    "header" ++ "." ++ "payload" ++ "." ++ "signature" ≠ "signature" ∧
    (loginUser 42 ("header" ++ "." ++ "payload" ++ "." ++ "signature") DBState.empty).1
      = [Stmt.insertAuth "signature" 42] ∧
    (isLoggedIn ("header" ++ "." ++ "payload" ++ "." ++ "signature") DBState.empty).1
      = [Stmt.selectAuth "signature"] ∧
    (logoutUser ("header" ++ "." ++ "payload" ++ "." ++ "signature") DBState.empty).1
      = [Stmt.deleteAuth "signature"] :=
  claim_C2_signature_keying "header" "payload" "signature" 42 DBState.empty
    (by decide) (by decide) (by decide)

/-- C4: `deleteFranchise` performs exactly the three deletes, in order,
inside a begin/commit transaction; on success no store, role assignment
or franchise row for the id remains and the other tables are untouched;
on any step's failure it rolls back, leaving the whole state unchanged,
and the error propagates. -/
theorem claim_C4_delete_franchise_transactional (fid : Nat) (s : DBState)
    (failStep : DelStep) :
    ((deleteFranchise none fid s).1
        = [Stmt.beginTxn, Stmt.deleteStoresByFranchise fid, Stmt.deleteRolesByObject fid,
            Stmt.deleteFranchiseRow fid, Stmt.commitTxn] ∧
      (deleteFranchise none fid s).2.2 = none ∧
      (deleteFranchise none fid s).2.1.stores.all (fun st => !(st.franchiseId == fid)) = true ∧
      (deleteFranchise none fid s).2.1.userRoles.all (fun r => !(r.objectId == fid)) = true ∧
      (deleteFranchise none fid s).2.1.franchises.all (fun f => !(f.id == fid)) = true ∧
      (deleteFranchise none fid s).2.1.auth = s.auth ∧
      (deleteFranchise none fid s).2.1.users = s.users ∧
      (deleteFranchise none fid s).2.1.menu = s.menu ∧
      (deleteFranchise none fid s).2.1.dinerOrders = s.dinerOrders ∧
      (deleteFranchise none fid s).2.1.orderItems = s.orderItems) ∧
    ((deleteFranchise (some failStep) fid s).2.1 = s ∧
      (deleteFranchise (some failStep) fid s).2.2 = some ErrKind.Internal ∧
      (deleteFranchise (some failStep) fid s).1.getLast? = some Stmt.rollbackTxn) := by
  constructor
  · refine ⟨rfl, rfl, ?_, ?_, ?_, rfl, rfl, rfl, rfl, rfl⟩ <;>
      simp [deleteFranchise, List.all_eq_true, List.mem_filter]
  · cases failStep <;> exact ⟨rfl, rfl, rfl⟩

/-- The length of the over-fetch-by-one truncation: fetching `k + 1`
rows and truncating to `k` returns `min k l.length` rows. -/
theorem truncate_length {α : Type} (l : List α) (k : Nat) :
    (if k < (l.take (k + 1)).length then (l.take (k + 1)).take k else l.take (k + 1)).length
      = min k l.length := by
  by_cases h : k < (l.take (k + 1)).length
  · rw [if_pos h]
    simp only [List.length_take] at h ⊢
    omega
  · rw [if_neg h]
    simp only [List.length_take] at h ⊢
    omega

/-- C5: `getFranchises` truncates the `pageSize + 1`-row over-fetch to
at most `pageSize` franchises — the result has `min pageSize n` rows
where `n` counts the matching rows past the offset — and `hasMore` is
true iff the raw fetch produced more than `pageSize` rows, i.e. iff
more than `pageSize` matching rows remain; in particular, with 3
matching franchises and page size 2 it returns exactly 2 franchises
with `hasMore = true`, and with exactly 2 matching franchises it
returns `hasMore = false`. -/
theorem claim_C5_list_franchises_pagination :
    (∀ (isAdmin : Bool) (page limit : Nat) (pred : FranchiseRow → Bool) (s : DBState),
      (getFranchises isAdmin page limit pred s).1.length
          = min limit ((s.franchises.filter pred).drop (page * limit)).length ∧
      ((getFranchises isAdmin page limit pred s).2 = true ↔
        limit < ((s.franchises.filter pred).drop (page * limit)).length)) ∧
    (getFranchises false 0 2 (fun _ => true)
        { DBState.empty with franchises := [⟨1, "A"⟩, ⟨2, "B"⟩, ⟨3, "C"⟩] }).1.length = 2 ∧
    (getFranchises false 0 2 (fun _ => true)
        { DBState.empty with franchises := [⟨1, "A"⟩, ⟨2, "B"⟩, ⟨3, "C"⟩] }).2 = true ∧
    (getFranchises false 0 2 (fun _ => true)
        { DBState.empty with franchises := [⟨1, "A"⟩, ⟨2, "B"⟩] }).2 = false := by
  refine ⟨?_, by decide, by decide, by decide⟩
  intro isAdmin page limit pred s
  constructor
  · simp only [getFranchises, List.length_map]
    exact truncate_length _ limit
  · simp only [getFranchises, decide_eq_true_eq, List.length_take]
    omega

/-- C6: `getOrders` returns `{dinerId, page, orders}` with at most
`pageSize` orders fetched at offset `(page - 1) * pageSize`, issues the
order fetch followed by exactly one item fetch per returned order, and
attaches each order's own item result set under its `items` field
(per-row association; an order with no item rows gets the empty
sequence rather than an error). -/
theorem claim_C6_get_orders_pagination (pageSize userId page : Nat) (s : DBState) :
    (getOrders pageSize userId page s).2.dinerId = userId ∧
    (getOrders pageSize userId page s).2.page = page ∧
    (getOrders pageSize userId page s).2.orders.length ≤ pageSize ∧
    (getOrders pageSize userId page s).1
      = Stmt.selectOrders userId ((page - 1) * pageSize) pageSize
        :: (getOrders pageSize userId page s).2.orders.map
            (fun o => Stmt.selectOrderItems o.id) ∧
    (getOrders pageSize userId page s).2.orders.map (fun o => o.items)
      = (getOrders pageSize userId page s).2.orders.map (fun o => itemsOf s o.id) := by
  refine ⟨rfl, rfl, ?_, ?_, ?_⟩
  · simp only [getOrders, List.length_map]
    exact List.length_take_le _ _
  · simp only [getOrders, List.map_map]
    rfl
  · simp only [getOrders, List.map_map]
    rfl

/-- C8: no user object returned by a credential-store operation carries
a password: `addUser` returns the created user with the password
omitted and the generated id populated, `getUser` strips the password,
and the views produced by `updateUser`'s re-fetch and by `listAllUsers`
are password-free. -/
theorem claim_C8_password_never_returned (hash : String → String) (d : UserDraft)
    (email pw : String) (uid page pageSize : Nat) (predU : UserRow → Bool)
    (upName upEmail upPw : Option String) (s : DBState) (u v w : UserView)
    (hget : getUser hash email pw s = Except.ok u)
    (hupd : (updateUser hash uid upName upEmail upPw s).2.2 = some v)
    (hlist : w ∈ (listAllUsers predU page pageSize s).1) :
    (addUser hash d s).1.password = none ∧
    (addUser hash d s).1.id = s.nextId ∧
    u.password = none ∧
    v.password = none ∧
    w.password = none := by
  refine ⟨rfl, rfl, ?_, ?_, ?_⟩
  · unfold getUser at hget
    split at hget
    · exact absurd hget (by simp)
    · split at hget
      · cases hget
        rfl
      · exact absurd hget (by simp)
  · have hview : getUserViewById (updateUser hash uid upName upEmail upPw s).2.1 uid
        = some v := hupd
    unfold getUserViewById at hview
    rcases Option.map_eq_some'.mp hview with ⟨row, _, hv⟩
    rw [← hv]
  · unfold listAllUsers at hlist
    rcases List.mem_map.mp hlist with ⟨row, _, hw⟩
    rw [← hw]

/-- Witness for C8: a concrete one-user store on which `getUser`
succeeds, `updateUser` re-fetches a view, and `listAllUsers` returns a
row. -/
theorem claim_C8_witness :
    (addUser (fun x => "#" ++ x) ⟨"n2", "e2", "p2", []⟩
        ⟨[], [⟨1, "n", "e", some "#p"⟩], [], [], [], [], [], [], 2⟩).1.password = none ∧
    (addUser (fun x => "#" ++ x) ⟨"n2", "e2", "p2", []⟩
        ⟨[], [⟨1, "n", "e", some "#p"⟩], [], [], [], [], [], [], 2⟩).1.id = 2 ∧
    (⟨1, "n", "e", none, []⟩ : UserView).password = none ∧
    (⟨1, "n", "e", none, []⟩ : UserView).password = none ∧
    (⟨1, "n", "e", none, []⟩ : UserView).password = none :=
  claim_C8_password_never_returned (fun x => "#" ++ x) ⟨"n2", "e2", "p2", []⟩
    "e" "p" 1 1 10 (fun _ => true) none none none
    ⟨[], [⟨1, "n", "e", some "#p"⟩], [], [], [], [], [], [], 2⟩
    ⟨1, "n", "e", none, []⟩ ⟨1, "n", "e", none, []⟩ ⟨1, "n", "e", none, []⟩
    (by rfl) (by rfl) (by decide)

/-- C9: `updateUser` with no present/non-empty name, email or password
issues zero write statements, leaves the whole database state
unchanged, and still returns the current user view via the
`getUser`-equivalent re-fetch. -/
theorem claim_C9_noop_update (hash : String → String) (uid : Nat)
    (upName upEmail upPw : Option String) (s : DBState)
    (hn : present upName = false) (he : present upEmail = false)
    (hp : present upPw = false) :
    updateUser hash uid upName upEmail upPw s = ([], s, getUserViewById s uid) := by
  simp [updateUser, hn, he, hp]

/-- Witness for C9 at a concrete user id and state, with the empty
string (which JS treats as "no change") among the arguments. -/
theorem claim_C9_witness :
    updateUser (fun x => x) 5 none (some "") none DBState.empty
      = ([], DBState.empty, getUserViewById DBState.empty 5) :=
  claim_C9_noop_update (fun x => x) 5 none (some "") none DBState.empty rfl rfl rfl

/-- C10: every successful `PUT /api/user/:userId` — allowed exactly when
the actor may act on the target, covering both self-update and
admin-update — issues a fresh session token for the updated user,
records it in the ledger, and returns it in the response body alongside
the updated user view. -/
theorem claim_C10_update_returns_fresh_token (hash : String → String)
    (sign : Identity → String) (actor : Identity) (targetUserId : Nat)
    (upName upEmail upPw : Option String) (s : DBState)
    (hcan : canActOnUser actor targetUserId = true) :
    ∃ resp s2, putUserRoute hash sign actor targetUserId upName upEmail upPw s
        = Except.ok (resp, s2) ∧
      resp.user = (updateUser hash targetUserId upName upEmail upPw s).2.2 ∧
      resp.token = sign ⟨targetUserId, ((resp.user).map (fun v => v.roles)).getD []⟩ ∧
      (isLoggedIn resp.token s2).2 = true := by
  unfold putUserRoute
  rw [if_pos hcan]
  exact ⟨_, _, rfl, rfl, rfl, isLoggedIn_after_login _ _ _⟩

/-- Witness for C10: the self-update path and the admin-update path at
concrete actors, mirroring the two router tests. -/
theorem claim_C10_witness :
    (∃ resp s2, putUserRoute (fun x => x) (fun u => "t.k." ++ toString u.id)
        ⟨1, [⟨"diner", 0⟩]⟩ 1 (some "Updated Name") none none DBState.empty
          = Except.ok (resp, s2) ∧
      resp.user = (updateUser (fun x => x) 1 (some "Updated Name") none none
          DBState.empty).2.2 ∧
      resp.token = (fun u : Identity => "t.k." ++ toString u.id)
          ⟨1, ((resp.user).map (fun v => v.roles)).getD []⟩ ∧
      (isLoggedIn resp.token s2).2 = true) ∧
    (∃ resp s2, putUserRoute (fun x => x) (fun u => "t.k." ++ toString u.id)
        ⟨999, [⟨"admin", 0⟩]⟩ 2 (some "Updated Name") none none DBState.empty
          = Except.ok (resp, s2) ∧
      resp.user = (updateUser (fun x => x) 2 (some "Updated Name") none none
          DBState.empty).2.2 ∧
      resp.token = (fun u : Identity => "t.k." ++ toString u.id)
          ⟨2, ((resp.user).map (fun v => v.roles)).getD []⟩ ∧
      (isLoggedIn resp.token s2).2 = true) :=
  ⟨claim_C10_update_returns_fresh_token (fun x => x) (fun u => "t.k." ++ toString u.id)
      ⟨1, [⟨"diner", 0⟩]⟩ 1 (some "Updated Name") none none DBState.empty (by decide),
    claim_C10_update_returns_fresh_token (fun x => x) (fun u => "t.k." ++ toString u.id)
      ⟨999, [⟨"admin", 0⟩]⟩ 2 (some "Updated Name") none none DBState.empty (by decide)⟩

theorem mkItemRows_orderId (oid : Nat) :
    ∀ (nid : Nat) (its : List ItemDraft), ∀ r ∈ mkItemRows oid nid its, r.orderId = oid := by
  intro nid its
  induction its generalizing nid with
  | nil => intro r hr; simp [mkItemRows] at hr
  | cons it rest ih =>
    intro r hr
    simp only [mkItemRows, List.mem_cons] at hr
    rcases hr with hr | hr
    · rw [hr]
    · exact ih (nid + 1) r hr

theorem mkItemRows_map_draft (oid : Nat) :
    ∀ (nid : Nat) (its : List ItemDraft),
      (mkItemRows oid nid its).map (fun r => ItemDraft.mk r.menuId r.description r.price)
        = its := by
  intro nid its
  induction its generalizing nid with
  | nil => rfl
  | cons it rest ih => simp [mkItemRows, ih (nid + 1)]

/-- C3: `addDinerOrder` is all-or-nothing.  With every referenced menu
id present it succeeds, and exactly the draft's items exist as item
rows of the new order, description and price copied at insertion time;
with any referenced menu id absent it fails with `NotFound` and no
order attributable to the call is observable (the state readers see has
no order row with the id the call would have allocated).  The freshness
hypotheses say the auto-increment id is not already in use. -/
theorem claim_C3_place_order_atomic (user : Identity) (d : OrderDraft) (s : DBState)
    (hN : d.items ≠ [])
    (hfreshO : ∀ o ∈ s.dinerOrders, o.id ≠ s.nextId)
    (hfreshI : ∀ oi ∈ s.orderItems, oi.orderId ≠ s.nextId) :
    (d.items.all (fun it => menuHas s it.menuId) = true →
      ∃ s2, addDinerOrder user d s = Except.ok (s.nextId, s2) ∧
        ((s2.orderItems.filter (fun oi => oi.orderId == s.nextId)).map
            (fun oi => ItemDraft.mk oi.menuId oi.description oi.price)) = d.items ∧
        (s2.orderItems.filter (fun oi => oi.orderId == s.nextId)).length
          = d.items.length ∧
        s2.dinerOrders = s.dinerOrders
          ++ [⟨s.nextId, user.id, d.franchiseId, d.storeId, "now()"⟩]) ∧
    ((∃ it ∈ d.items, menuHas s it.menuId = false) →
      addDinerOrder user d s = Except.error ErrKind.NotFound ∧
      s.dinerOrders.filter (fun o => o.id == s.nextId) = []) := by
  constructor
  · intro hall
    rw [addDinerOrder, if_pos hall]
    refine ⟨_, rfl, ?_, ?_, rfl⟩
    · have hfilter : (s.orderItems
            ++ mkItemRows s.nextId (s.nextId + 1) d.items).filter
              (fun oi => oi.orderId == s.nextId)
          = mkItemRows s.nextId (s.nextId + 1) d.items := by
        rw [List.filter_append]
        have h1 : s.orderItems.filter (fun oi => oi.orderId == s.nextId) = [] := by
          rw [List.filter_eq_nil_iff]
          intro oi hoi
          simpa using hfreshI oi hoi
        have h2 : (mkItemRows s.nextId (s.nextId + 1) d.items).filter
            (fun oi => oi.orderId == s.nextId)
            = mkItemRows s.nextId (s.nextId + 1) d.items := by
          rw [List.filter_eq_self]
          intro r hr
          simp [mkItemRows_orderId s.nextId (s.nextId + 1) d.items r hr]
        rw [h1, h2, List.nil_append]
      rw [hfilter, mkItemRows_map_draft]
    · have := congrArg List.length
        (mkItemRows_map_draft s.nextId (s.nextId + 1) d.items)
      rw [List.length_map] at this
      have hfilter : (s.orderItems
            ++ mkItemRows s.nextId (s.nextId + 1) d.items).filter
              (fun oi => oi.orderId == s.nextId)
          = mkItemRows s.nextId (s.nextId + 1) d.items := by
        rw [List.filter_append]
        have h1 : s.orderItems.filter (fun oi => oi.orderId == s.nextId) = [] := by
          rw [List.filter_eq_nil_iff]
          intro oi hoi
          simpa using hfreshI oi hoi
        have h2 : (mkItemRows s.nextId (s.nextId + 1) d.items).filter
            (fun oi => oi.orderId == s.nextId)
            = mkItemRows s.nextId (s.nextId + 1) d.items := by
          rw [List.filter_eq_self]
          intro r hr
          simp [mkItemRows_orderId s.nextId (s.nextId + 1) d.items r hr]
        rw [h1, h2, List.nil_append]
      rw [hfilter, this]
  · intro hmiss
    have hall : d.items.all (fun it => menuHas s it.menuId) = false := by
      rcases hmiss with ⟨it, hit, hfalse⟩
      rw [List.all_eq_false]
      exact ⟨it, hit, by simp [hfalse]⟩
    refine ⟨?_, ?_⟩
    · rw [addDinerOrder, if_neg (by simp [hall])]
    · rw [List.filter_eq_nil_iff]
      intro o ho
      simpa using hfreshO o ho

/-- Witness for C3: a concrete two-item order that succeeds with both
item rows copied, and a concrete draft referencing a nonexistent menu
id 99 that fails with `NotFound` and leaves no attributable order. -/
theorem claim_C3_witness :
    (∃ s2, addDinerOrder ⟨1, []⟩ ⟨1, 2, [⟨10, "Burger", 6⟩, ⟨11, "Fries", 3⟩]⟩
          orderDemoState = Except.ok (orderDemoState.nextId, s2) ∧
      ((s2.orderItems.filter (fun oi => oi.orderId == orderDemoState.nextId)).map
          (fun oi => ItemDraft.mk oi.menuId oi.description oi.price))
        = [⟨10, "Burger", 6⟩, ⟨11, "Fries", 3⟩] ∧
      (s2.orderItems.filter (fun oi => oi.orderId == orderDemoState.nextId)).length = 2 ∧
      s2.dinerOrders = orderDemoState.dinerOrders
        ++ [⟨orderDemoState.nextId, 1, 1, 2, "now()"⟩]) ∧
    (addDinerOrder ⟨1, []⟩ ⟨1, 2, [⟨10, "Burger", 6⟩, ⟨99, "Ghost", 1⟩]⟩ orderDemoState
        = Except.error ErrKind.NotFound ∧
      orderDemoState.dinerOrders.filter (fun o => o.id == orderDemoState.nextId) = []) :=
  ⟨(claim_C3_place_order_atomic ⟨1, []⟩ ⟨1, 2, [⟨10, "Burger", 6⟩, ⟨11, "Fries", 3⟩]⟩
      orderDemoState (by decide) (by decide) (by decide)).1 (by decide),
    (claim_C3_place_order_atomic ⟨1, []⟩ ⟨1, 2, [⟨10, "Burger", 6⟩, ⟨99, "Ghost", 1⟩]⟩
      orderDemoState (by decide) (by decide) (by decide)).2
      ⟨⟨99, "Ghost", 1⟩, by decide, by decide⟩⟩

/-- C7 counterexample: the claim fails on the code as its own router
test pins it.  For the non-admin diner actor (id 2) requesting user 3's
franchises, `canActOnUser` fails, yet the `GET /api/franchise/:userId`
route answers with a successful empty result instead of signalling
`Forbidden` — even though user 3 does have a franchise to show. -/
theorem claim_C7_counterexample :
    canActOnUser dinerActor 3 = false ∧
    getUserFranchises 3 franchiseDemoState ≠ [] ∧
    listUserFranchisesRoute dinerActor 3 franchiseDemoState = Except.ok [] ∧
    listUserFranchisesRoute dinerActor 3 franchiseDemoState
      ≠ Except.error ErrKind.Forbidden := by
  have hroute : listUserFranchisesRoute dinerActor 3 franchiseDemoState
      = Except.ok [] := rfl
  refine ⟨by decide, by decide, hroute, ?_⟩
  rw [hroute]
  intro h
  exact Except.noConfusion h

/-- C7 amended: a failed `canAdminFranchise` check on store creation or
deletion, a failed admin check on franchise creation, and a failed
`canActOnUser` check on a profile update each signal `Forbidden`; but a
failed `canActOnUser` check on the user-franchise listing is downgraded
to a successful empty result, and franchise deletion performs no
authorization check at all (it succeeds for every caller). -/
theorem claim_C7_forbidden_amended (actor : Identity) (targetUserId fid sid : Nat)
    (storeName fName : String) (adminEmails : List String)
    (hash : String → String) (sign : Identity → String)
    (upName upEmail upPw : Option String) (s : DBState)
    (hfr : canAdminFranchise actor (fetchFranchise s fid) = false)
    (hu : canActOnUser actor targetUserId = false) :
    createStoreRoute actor fid storeName s = Except.error ErrKind.Forbidden ∧
    deleteStoreRoute actor fid sid s = Except.error ErrKind.Forbidden ∧
    createFranchiseRoute actor fName adminEmails s = Except.error ErrKind.Forbidden ∧
    putUserRoute hash sign actor targetUserId upName upEmail upPw s
      = Except.error ErrKind.Forbidden ∧
    listUserFranchisesRoute actor targetUserId s = Except.ok [] ∧
    ∃ s2, deleteFranchiseRoute fid s = Except.ok s2 := by
  have hadm : actor.isRole Role.Admin = false :=
    (Bool.or_eq_false_iff.mp hfr).1
  refine ⟨?_, ?_, ?_, ?_, ?_, ⟨_, rfl⟩⟩
  · unfold createStoreRoute
    rw [if_neg (by simp [hfr])]
  · unfold deleteStoreRoute
    rw [if_neg (by simp [hfr])]
  · unfold createFranchiseRoute
    rw [if_neg (by simp [hadm])]
  · unfold putUserRoute
    rw [if_neg (by simp [hu])]
  · unfold listUserFranchisesRoute
    rw [if_neg (by simp [hu])]

/-- Witness for the amended C7 at the concrete diner actor and
franchise fixture of the router tests. -/
theorem claim_C7_amended_witness :
    createStoreRoute dinerActor 1 "SLC" franchiseDemoState
      = Except.error ErrKind.Forbidden ∧
    deleteStoreRoute dinerActor 1 2 franchiseDemoState
      = Except.error ErrKind.Forbidden ∧
    createFranchiseRoute dinerActor "pizzaPocket" ["f@jwt.com"] franchiseDemoState
      = Except.error ErrKind.Forbidden ∧
    putUserRoute (fun x => x) (fun _ => "t.k.n") dinerActor 3 none none none
      franchiseDemoState = Except.error ErrKind.Forbidden ∧
    listUserFranchisesRoute dinerActor 3 franchiseDemoState = Except.ok [] ∧
    ∃ s2, deleteFranchiseRoute 1 franchiseDemoState = Except.ok s2 :=
  claim_C7_forbidden_amended dinerActor 3 1 2 "SLC" "pizzaPocket" ["f@jwt.com"]
    (fun x => x) (fun _ => "t.k.n") none none none franchiseDemoState
    (by decide) (by decide)

end JwtPizza
